import Mathlib

set_option maxRecDepth 10000

/-! Shallow embedding of src/server.py (Newscatcher CatchAll MCP server):
response decoding, error-message extraction, request construction, the
context-variable credential store, and the monitor-update tool template.
External collaborators (the json module, gzip and zlib decompression) are
modelled as explicit Lean functions or as function parameters. -/

/-- JSON values as produced by the model of json.loads: null, booleans,
integer numbers, strings, arrays and objects.  Objects are association
lists with unique keys; duplicate keys in the input overwrite in place,
as Python dict construction does.  Fractional and exponent number
literals are outside the modelled subset. -/
inductive Json where
  | null : Json
  | bool : Bool → Json
  | num : Int → Json
  | str : String → Json
  | arr : List Json → Json
  | obj : List (String × Json) → Json

/-- Insert a key into an object, overwriting in place when the key exists,
as Python dict assignment does. -/
def objInsert (fields : List (String × Json)) (k : String) (v : Json) :
    List (String × Json) :=
  if fields.any (fun kv => kv.1 == k) then
    fields.map (fun kv => if kv.1 == k then (k, v) else kv)
  else
    fields ++ [(k, v)]

/-- Collapse duplicate keys, later occurrences overwriting earlier ones
(Python dict construction semantics). -/
def dedupFields (fs : List (String × Json)) : List (String × Json) :=
  fs.foldl (fun acc kv => objInsert acc kv.1 kv.2) []

/-- Key lookup in an object (dict membership and item access). -/
def objGet (fields : List (String × Json)) (k : String) : Option Json :=
  (fields.find? (fun kv => kv.1 == k)).map (fun kv => kv.2)

def leftBrace : Char := Char.ofNat 123

def rightBrace : Char := Char.ofNat 125

def sqc : Char := Char.ofNat 39

def squo : String := String.singleton sqc

/-- JSON whitespace: space, tab, newline, carriage return. -/
def isJsonWs (c : Char) : Bool := c == ' ' || c == '\t' || c == '\n' || c == '\r'

def skipWs : List Char → List Char
  | [] => []
  | c :: cs => if isJsonWs c then skipWs cs else c :: cs

def digitsVal (ds : List Char) : Nat :=
  ds.foldl (fun acc c => acc * 10 + (c.toNat - 48)) 0

/-- Number literals: optional minus, digit run without leading zeros.
Fractional or exponent continuations are outside the modelled subset and
are rejected outright rather than misparsed. -/
def parseNumber (cs : List Char) : Option (Json × List Char) :=
  let negp : Bool × List Char :=
    match cs with
    | c :: rest => if c = '-' then (true, rest) else (false, cs)
    | [] => (false, cs)
  let ds := negp.2.takeWhile Char.isDigit
  let rest := negp.2.dropWhile Char.isDigit
  if ds = [] then none
  else if 1 < ds.length ∧ ds.head? = some '0' then none
  else
    let n : Int := if negp.1 then -(digitsVal ds : Int) else (digitsVal ds : Int)
    match rest with
    | c :: _ => if c = '.' ∨ c = 'e' ∨ c = 'E' then none else some (Json.num n, rest)
    | [] => some (Json.num n, rest)

def hexVal (c : Char) : Option Nat :=
  if c.isDigit then some (c.toNat - 48)
  else if 'a' ≤ c ∧ c ≤ 'f' then some (c.toNat - 87)
  else if 'A' ≤ c ∧ c ≤ 'F' then some (c.toNat - 55)
  else none

/-- Decode one string escape sequence, the backslash already consumed. -/
def escDecode : List Char → Option (Char × List Char)
  | [] => none
  | e :: rest =>
    if e = '"' then some ('"', rest)
    else if e = '\\' then some ('\\', rest)
    else if e = '/' then some ('/', rest)
    else if e = 'b' then some (Char.ofNat 8, rest)
    else if e = 'f' then some (Char.ofNat 12, rest)
    else if e = 'n' then some ('\n', rest)
    else if e = 'r' then some ('\r', rest)
    else if e = 't' then some ('\t', rest)
    else if e = 'u' then
      match rest with
      | a :: b :: c :: d :: rest2 =>
        match hexVal a, hexVal b, hexVal c, hexVal d with
        | some x, some y, some z, some w =>
          some (Char.ofNat (x * 4096 + y * 256 + z * 16 + w), rest2)
        | _, _, _, _ => none
      | _ => none
    else none

mutual

/-- Value dispatch of the json.loads model.  The fuel argument bounds
recursion depth; json_loads supplies more fuel than any input can use. -/
def parseValue : Nat → List Char → Option (Json × List Char)
  | 0, _ => none
  | fuel+1, cs =>
    match cs with
    | [] => none
    | c :: rest =>
      if c = '"' then
        match parseStringBody fuel rest with
        | some (s, rest2) => some (Json.str s, rest2)
        | none => none
      else if c = leftBrace then
        match parseMembers fuel rest with
        | some (fs, rest2) => some (Json.obj (dedupFields fs), rest2)
        | none => none
      else if c = '[' then
        match parseItems fuel rest with
        | some (xs, rest2) => some (Json.arr xs, rest2)
        | none => none
      else if c = 't' then
        if rest.take 3 = ['r', 'u', 'e'] then some (Json.bool true, rest.drop 3) else none
      else if c = 'f' then
        if rest.take 4 = ['a', 'l', 's', 'e'] then some (Json.bool false, rest.drop 4) else none
      else if c = 'n' then
        if rest.take 3 = ['u', 'l', 'l'] then some (Json.null, rest.drop 3) else none
      else if c = '-' ∨ c.isDigit = true then parseNumber cs
      else none

/-- String body after the opening quote: literal characters, escapes,
raw control characters rejected as in strict json.loads. -/
def parseStringBody : Nat → List Char → Option (String × List Char)
  | 0, _ => none
  | fuel+1, cs =>
    match cs with
    | [] => none
    | c :: rest =>
      if c = '"' then some ("", rest)
      else if c = '\\' then
        match escDecode rest with
        | some (ch, rest2) =>
          match parseStringBody fuel rest2 with
          | some (s, r) => some (String.singleton ch ++ s, r)
          | none => none
        | none => none
      else if c.toNat < 32 then none
      else
        match parseStringBody fuel rest with
        | some (s, r) => some (String.singleton c ++ s, r)
        | none => none

/-- Array elements right after the opening bracket. -/
def parseItems : Nat → List Char → Option (List Json × List Char)
  | 0, _ => none
  | fuel+1, cs =>
    match skipWs cs with
    | [] => none
    | c :: rest =>
      if c = ']' then some ([], rest)
      else
        match parseValue fuel (c :: rest) with
        | some (v, rest2) =>
          match parseItemsRest fuel rest2 with
          | some (vs, rest3) => some (v :: vs, rest3)
          | none => none
        | none => none

/-- Continuation of an array after one element: comma or closing bracket. -/
def parseItemsRest : Nat → List Char → Option (List Json × List Char)
  | 0, _ => none
  | fuel+1, cs =>
    match skipWs cs with
    | [] => none
    | c :: rest =>
      if c = ']' then some ([], rest)
      else if c = ',' then
        match parseValue fuel (skipWs rest) with
        | some (v, rest2) =>
          match parseItemsRest fuel rest2 with
          | some (vs, rest3) => some (v :: vs, rest3)
          | none => none
        | none => none
      else none

/-- Object members right after the opening brace. -/
def parseMembers : Nat → List Char → Option (List (String × Json) × List Char)
  | 0, _ => none
  | fuel+1, cs =>
    match skipWs cs with
    | [] => none
    | c :: rest =>
      if c = rightBrace then some ([], rest)
      else
        match parsePair fuel (c :: rest) with
        | some (kv, rest2) =>
          match parseMembersRest fuel rest2 with
          | some (kvs, rest3) => some (kv :: kvs, rest3)
          | none => none
        | none => none

/-- Continuation of an object after one member: comma or closing brace. -/
def parseMembersRest : Nat → List Char → Option (List (String × Json) × List Char)
  | 0, _ => none
  | fuel+1, cs =>
    match skipWs cs with
    | [] => none
    | c :: rest =>
      if c = rightBrace then some ([], rest)
      else if c = ',' then
        match parsePair fuel (skipWs rest) with
        | some (kv, rest2) =>
          match parseMembersRest fuel rest2 with
          | some (kvs, rest3) => some (kv :: kvs, rest3)
          | none => none
        | none => none
      else none

/-- One key-value member: quoted key, colon, value. -/
def parsePair : Nat → List Char → Option ((String × Json) × List Char)
  | 0, _ => none
  | fuel+1, cs =>
    match cs with
    | [] => none
    | c :: rest =>
      if c = '"' then
        match parseStringBody fuel rest with
        | some (k, rest2) =>
          match skipWs rest2 with
          | [] => none
          | c2 :: rest3 =>
            if c2 = ':' then
              match parseValue fuel (skipWs rest3) with
              | some (v, rest4) => some ((k, v), rest4)
              | none => none
            else none
        | none => none
      else none

end

/-- Model of json.loads: skip leading whitespace, parse one value, require
only whitespace to remain.  Returns none where json.loads raises. -/
def json_loads (s : String) : Option Json :=
  match parseValue (4 * s.length + 4) (skipWs s.data) with
  | some (v, rest) => if skipWs rest = [] then some v else none
  | none => none

/-- Python repr of a string: quote choice and basic escapes. -/
def pyEscapeChar (q c : Char) : String :=
  if c = '\\' then "\\\\"
  else if c = q then String.singleton '\\' ++ String.singleton q
  else if c = '\n' then "\\n"
  else if c = '\r' then "\\r"
  else if c = '\t' then "\\t"
  else String.singleton c

def pyReprString (s : String) : String :=
  let q : Char := if s.data.contains sqc && !(s.data.contains '"') then '"' else sqc
  String.singleton q ++ String.join (s.data.map (pyEscapeChar q)) ++ String.singleton q

mutual

/-- Python repr of a decoded JSON value (the printable subset used by the
error-extraction code path). -/
def pyRepr : Json → String
  | Json.null => "None"
  | Json.bool true => "True"
  | Json.bool false => "False"
  | Json.num n => toString n
  | Json.str s => pyReprString s
  | Json.arr xs => "[" ++ pyReprList xs ++ "]"
  | Json.obj fs => String.singleton leftBrace ++ pyReprFields fs ++ String.singleton rightBrace

def pyReprList : List Json → String
  | [] => ""
  | [x] => pyRepr x
  | x :: y :: xs => pyRepr x ++ ", " ++ pyReprList (y :: xs)

def pyReprFields : List (String × Json) → String
  | [] => ""
  | [kv] => pyReprString kv.1 ++ ": " ++ pyRepr kv.2
  | kv :: kv2 :: fs => pyReprString kv.1 ++ ": " ++ pyRepr kv.2 ++ ", " ++ pyReprFields (kv2 :: fs)

end

/-- Python str() applied to a decoded JSON value: strings pass through
unchanged, every other value prints as its repr. -/
def pyStr : Json → String
  | Json.str s => s
  | v => pyRepr v

/-- Continuation byte of a UTF-8 sequence. -/
def isCont (b : Nat) : Bool := 128 ≤ b && b ≤ 191

/-- Strict UTF-8 decoding of a byte list, rejecting overlong encodings,
surrogates and out-of-range sequences, as bytes.decode with the utf-8
codec does.  Returns none where Python raises UnicodeDecodeError.  The
state arguments carry the number of continuation bytes still expected,
the accumulated code point, and the admissible range of the next byte. -/
def utf8Run : List Nat → Nat → Nat → Nat → Nat → Option (List Char)
  | [], need, _, _, _ => if need = 0 then some [] else none
  | b :: bs, 0, _, _, _ =>
    if b < 128 then (utf8Run bs 0 0 0 0).map (fun l => Char.ofNat b :: l)
    else if 194 ≤ b ∧ b ≤ 223 then utf8Run bs 1 (b - 192) 128 191
    else if b = 224 then utf8Run bs 2 0 160 191
    else if 225 ≤ b ∧ b ≤ 236 then utf8Run bs 2 (b - 224) 128 191
    else if b = 237 then utf8Run bs 2 13 128 159
    else if 238 ≤ b ∧ b ≤ 239 then utf8Run bs 2 (b - 224) 128 191
    else if b = 240 then utf8Run bs 3 0 144 191
    else if 241 ≤ b ∧ b ≤ 243 then utf8Run bs 3 (b - 240) 128 191
    else if b = 244 then utf8Run bs 3 4 128 143
    else none
  | b :: bs, need+1, acc, lo, hi =>
    if lo ≤ b ∧ b ≤ hi then
      if need = 0 then
        (utf8Run bs 0 0 0 0).map (fun l => Char.ofNat (acc * 64 + (b - 128)) :: l)
      else utf8Run bs need (acc * 64 + (b - 128)) 128 191
    else none

def utf8DecodeChars (content : List Nat) : Option (List Char) :=
  utf8Run content 0 0 0 0

def utf8Decode (content : List Nat) : Option String :=
  (utf8DecodeChars content).map String.mk

/-- UTF-8 encoding of one character (used to build concrete byte inputs). -/
def utf8EncodeChar (c : Char) : List Nat :=
  let n := c.toNat
  if n < 128 then [n]
  else if n < 2048 then [192 + n / 64, 128 + n % 64]
  else if n < 65536 then [224 + n / 4096, 128 + (n / 64) % 64, 128 + n % 64]
  else [240 + n / 262144, 128 + (n / 4096) % 64, 128 + (n / 64) % 64, 128 + n % 64]

def utf8Encode (s : String) : List Nat :=
  (s.data.map utf8EncodeChar).flatten

/-- Latin-1 decoding: every byte below 256 maps to the character with the
same code point; bytes.decode with the latin-1 codec never fails on real
bytes. -/
def latin1Decode (content : List Nat) : Option String :=
  if content.all (fun b => decide (b < 256)) then
    some (String.mk (content.map Char.ofNat))
  else none

/-- The decompression half of decode_response_content: sniff gzip magic
bytes or the zlib leading byte and try the matching decompression,
keeping the raw bytes when decompression fails.  The gzip and zlib
library functions are parameters gz and zl, returning none where the
Python calls raise. -/
def decompressStep (gz zl : List Nat → Option (List Nat)) (content : List Nat) : List Nat :=
  if content ≠ [] ∧ 2 < content.length then
    if content.take 2 = [31, 139] then
      match gz content with
      | some d => d
      | none => content
    else if content.head? = some 120 then
      match zl content with
      | some d => d
      | none => content
    else content
  else content

/-- The text-decoding half of decode_response_content: utf-8 first, then
latin-1, then the byte-count placeholder. -/
def textDecode (content : List Nat) : String :=
  match utf8Decode content with
  | some s => s
  | none =>
    match latin1Decode content with
    | some s => s
    | none => "[Binary response: " ++ toString content.length ++ " bytes]"

/-- decode_response_content from src/server.py: decompress if the bytes
look compressed, then decode to text with fallbacks. -/
def decode_response_content (gz zl : List Nat → Option (List Nat)) (content : List Nat) : String :=
  textDecode (decompressStep gz zl content)

/-- extract_error_message from src/server.py: decode the body, try JSON
fields detail, error, message in order (each converted with str), fall
back to the decoded text, or synthesize HTTP status when the text is
empty. -/
def extract_error_message (gz zl : List Nat → Option (List Nat))
    (status : Nat) (content : List Nat) : String :=
  let text := decode_response_content gz zl content
  match json_loads text with
  | some data =>
    match data with
    | Json.obj fields =>
      match objGet fields "detail" with
      | some v => pyStr v
      | none =>
        match objGet fields "error" with
        | some v => pyStr v
        | none =>
          match objGet fields "message" with
          | some v => pyStr v
          | none => text
    | _ => text
  | none => if text = "" then "HTTP " ++ toString status else text

/-- An upstream HTTP request as built by make_api_request. -/
structure Request where
  method : String
  path : String
  headers : List (String × String)
  json_data : Option (List (String × Json))
  params : Option (List (String × Json))

/-- An upstream HTTP response: status code and body bytes. -/
structure Response where
  status : Nat
  content : List Nat

/-- The headers and request assembled by make_api_request. -/
def buildRequest (api_key m p : String)
    (jd pr : Option (List (String × Json))) : Request :=
  { method := m
    path := p
    headers := [("x-api-key", api_key), ("Content-Type", "application/json"),
                ("Accept", "application/json")]
    json_data := jd
    params := pr }

/-- The message of the ValueError raised when no API key is available. -/
def apiKeyErrMsg : String :=
  "API key not provided. Include it in the MCP URL as ?apiKey=YOUR_KEY"

/-- The context-variable credential store: one value per logical call
context, defaulting to the empty string (current_api_key in the source).
Modelled after the documented semantics of contextvars.ContextVar. -/
def contextvar_get (store : Nat → String) (ctx : Nat) : String := store ctx

def contextvar_set (store : Nat → String) (ctx : Nat) (v : String) : Nat → String :=
  fun c => if c = ctx then v else store c

/-- Query-parameter access with default, as request.query_params.get. -/
def queryGet (qp : List (String × String)) (k : String) : String :=
  (qp.lookup k).getD ""

/-- ApiKeyMiddleware.on_call_tool from src/server.py: read the apiKey
query parameter of the inbound request and, when non-empty, store it in
the context variable of the current call context. -/
def on_call_tool (store : Nat → String) (ctx : Nat)
    (query_params : List (String × String)) : Nat → String :=
  let api_key := queryGet query_params "apiKey"
  if api_key ≠ "" then contextvar_set store ctx api_key else store

/-- make_api_request from src/server.py.  The HTTP client is the respond
parameter; the result pairs the Python return or raise (as Except) with
the request that was issued, none when none was. -/
def make_api_request (gz zl : List Nat → Option (List Nat))
    (store : Nat → String) (ctx : Nat) (m p : String)
    (jd pr : Option (List (String × Json)))
    (respond : Request → Response) : Except String Json × Option Request :=
  let api_key := contextvar_get store ctx
  if api_key = "" then (Except.error apiKeyErrMsg, none)
  else
    let req := buildRequest api_key m p jd pr
    let response := respond req
    if 400 ≤ response.status then
      (Except.error ("API Error (" ++ toString response.status ++ "): " ++
        extract_error_message gz zl response.status response.content), some req)
    else
      let text := decode_response_content gz zl response.content
      match json_loads text with
      | some v => (Except.ok v, some req)
      | none => (Except.ok (Json.obj [("result", Json.str text)]), some req)

/-- The method, path, body and query parameters a tool hands to
make_api_request. -/
structure Call where
  method : String
  path : String
  json_data : Option (List (String × Json))
  params : Option (List (String × Json))

/-- pull_job_results from src/server.py: GET /catchAll/pull/job_id with
no body and no query parameters. -/
def pull_job_results (job_id : String) : Call :=
  { method := "GET"
    path := "/catchAll/pull/" ++ job_id
    json_data := none
    params := none }

/-- The message of the ValueError raised by update_monitor when no field
is supplied. -/
def updateMonitorErrMsg : String :=
  "At least one of " ++ squo ++ "name" ++ squo ++ " or " ++ squo ++
    "schedule" ++ squo ++ " must be provided"

/-- Python truthiness of an optional string argument. -/
def truthyStr : Option String → Bool
  | some s => s ≠ ""
  | none => false

/-- update_monitor from src/server.py: build the body from the truthy
arguments, raise ValueError when it stays empty, otherwise hand a PATCH
call to make_api_request. -/
def update_monitor (monitor_id : String) (name schedule : Option String) :
    Except String Call :=
  let data : List (String × Json) :=
    (if truthyStr name then [("name", Json.str (name.getD ""))] else []) ++
      (if truthyStr schedule then [("schedule", Json.str (schedule.getD ""))] else [])
  if data.isEmpty then Except.error updateMonitorErrMsg
  else
    Except.ok
      { method := "PATCH"
        path := "/catchAll/monitors/" ++ monitor_id
        json_data := some data
        params := none }

/-- Modelled from the spec: the three-source credential resolver.  Only
the query-parameter variant of the repository is in src/server.py; the
variants taking an explicit api_key argument or the environment variable
NEWSCATCHER_API_KEY are not included, so the resolver is written from the
spec wording: return the first non-empty value among explicit,
connection_scoped, environment_default, in that fixed order, else fail
with a configuration error. -/
def nonEmpty : Option String → Option String
  | some s => if s = "" then none else some s
  | none => none

/-- Modelled from the spec: credential resolution over the three sources
(see nonEmpty). -/
def resolve (explicit connection_scoped environment_default : Option String) :
    Except String String :=
  match nonEmpty explicit with
  | some v => Except.ok v
  | none =>
    match nonEmpty connection_scoped with
    | some v => Except.ok v
    | none =>
      match nonEmpty environment_default with
      | some v => Except.ok v
      | none => Except.error "credential required"

/-- The characters a JSON value can start with in the json.loads model. -/
def jsonStart (c : Char) : Prop :=
  c = '"' ∨ c = leftBrace ∨ c = '[' ∨ c = 't' ∨ c = 'f' ∨ c = 'n' ∨ c = '-' ∨ c.isDigit = true

instance : DecidablePred jsonStart := fun c => by
  unfold jsonStart
  infer_instance

theorem parseValue_start {f : Nat} {cs : List Char} {p : Json × List Char}
    (h : parseValue f cs = some p) : ∃ c cs2, cs = c :: cs2 ∧ jsonStart c := by
  match f, cs with
  | 0, cs => simp [parseValue] at h
  | f+1, [] => simp [parseValue] at h
  | f+1, c :: rest =>
    refine ⟨c, rest, rfl, ?_⟩
    by_contra hc
    unfold jsonStart at hc
    push_neg at hc
    obtain ⟨h1, h2, h3, h4, h5, h6, h7, h8⟩ := hc
    simp [parseValue, h1, h2, h3, h4, h5, h6, h7, h8] at h

theorem json_loads_start {s : String} {v : Json} (h : json_loads s = some v) :
    ∃ c cs2, skipWs s.data = c :: cs2 ∧ jsonStart c := by
  unfold json_loads at h
  cases hp : parseValue (4 * s.length + 4) (skipWs s.data) with
  | none => rw [hp] at h; simp at h
  | some p => exact parseValue_start hp

theorem utf8DecodeChars_cons31 (bs : List Nat) :
    utf8DecodeChars (31 :: bs) = (utf8DecodeChars bs).map (fun l => Char.ofNat 31 :: l) := rfl

theorem utf8DecodeChars_cons120 (bs : List Nat) :
    utf8DecodeChars (120 :: bs) = (utf8DecodeChars bs).map (fun l => Char.ofNat 120 :: l) := rfl

theorem json_head_not_start {b : Nat} {bs : List Nat} {s : String} {v : Json}
    (heq : utf8DecodeChars (b :: bs) = (utf8DecodeChars bs).map (fun l => Char.ofNat b :: l))
    (hws : isJsonWs (Char.ofNat b) = false)
    (hns : ¬ jsonStart (Char.ofNat b))
    (hu : utf8Decode (b :: bs) = some s) (hj : json_loads s = some v) : False := by
  unfold utf8Decode at hu
  rw [heq] at hu
  cases hr : utf8DecodeChars bs with
  | none => rw [hr] at hu; simp at hu
  | some l2 =>
    rw [hr] at hu
    replace hu : String.mk (Char.ofNat b :: l2) = s := Option.some.inj hu
    obtain ⟨c, cs2, hsk, hstart⟩ := json_loads_start hj
    rw [← hu] at hsk
    have hdata : (String.mk (Char.ofNat b :: l2)).data = Char.ofNat b :: l2 := rfl
    rw [hdata, skipWs] at hsk
    simp only [hws, Bool.false_eq_true, if_false, List.cons.injEq] at hsk
    exact hns (hsk.1 ▸ hstart)

theorem json_head_not_magic {b : Nat} {bs : List Nat} {s : String} {v : Json}
    (hu : utf8Decode (b :: bs) = some s) (hj : json_loads s = some v) :
    ¬ (b = 31 ∨ b = 120) := by
  rintro (rfl | rfl)
  · exact json_head_not_start (utf8DecodeChars_cons31 bs) (by decide) (by decide) hu hj
  · exact json_head_not_start (utf8DecodeChars_cons120 bs) (by decide) (by decide) hu hj

/-- C6: decoding the gzip-compressed form of a JSON body and parsing it
yields the same parsed object as decoding and parsing the uncompressed
body.  Gzip decompression is the gz parameter; compressed being the
gzip form of body is expressed by the magic-byte and gz hypotheses. -/
theorem c6_gzip_idempotence
    (gz zl : List Nat → Option (List Nat)) (body compressed : List Nat)
    (s : String) (v : Json)
    (hlen : 2 < compressed.length)
    (hmagic : compressed.take 2 = [31, 139])
    (hgz : gz compressed = some body)
    (hu : utf8Decode body = some s)
    (hj : json_loads s = some v) :
    decode_response_content gz zl compressed = decode_response_content gz zl body ∧
    json_loads (decode_response_content gz zl compressed) = some v ∧
    json_loads (decode_response_content gz zl body) = some v := by
  have hcne : compressed ≠ [] := by
    intro h
    rw [h] at hlen
    simp at hlen
  have hstep1 : decompressStep gz zl compressed = body := by
    unfold decompressStep
    rw [if_pos ⟨hcne, hlen⟩, if_pos hmagic, hgz]
  have htext : textDecode body = s := by
    unfold textDecode
    rw [hu]
  have hstep2 : decompressStep gz zl body = body := by
    unfold decompressStep
    by_cases hb2 : body ≠ [] ∧ 2 < body.length
    · rw [if_pos hb2]
      obtain ⟨b, bs, rfl⟩ : ∃ b bs, body = b :: bs := by
        cases body with
        | nil => exact absurd rfl hb2.1
        | cons b bs => exact ⟨b, bs, rfl⟩
      have hnot := json_head_not_magic hu hj
      have h31 : ¬ (b :: bs).take 2 = [31, 139] := by
        intro ht
        simp only [List.take_succ_cons, List.cons.injEq] at ht
        exact hnot (Or.inl ht.1)
      rw [if_neg h31]
      have h120 : ¬ (b :: bs).head? = some 120 := by
        simp only [List.head?_cons, Option.some.injEq]
        intro hb120
        exact hnot (Or.inr hb120)
      rw [if_neg h120]
    · rw [if_neg hb2]
  have hc : decode_response_content gz zl compressed = s := by
    unfold decode_response_content
    rw [hstep1, htext]
  have hbduc : decode_response_content gz zl body = s := by
    unfold decode_response_content
    rw [hstep2, htext]
  refine ⟨by rw [hc, hbduc], by rw [hc]; exact hj, by rw [hbduc]; exact hj⟩

/-- Witness for C6 at a concrete gzip pair: compressed bytes 31 139 0
decompressing to the two bytes of an empty JSON object. -/
theorem c6_gzip_idempotence_witness :
    decode_response_content (fun c => if c = [31, 139, 0] then some [123, 125] else none)
        (fun _ => none) [31, 139, 0] =
      decode_response_content (fun c => if c = [31, 139, 0] then some [123, 125] else none)
        (fun _ => none) [123, 125] ∧
    json_loads (decode_response_content (fun c => if c = [31, 139, 0] then some [123, 125] else none)
        (fun _ => none) [31, 139, 0]) = some (Json.obj []) ∧
    json_loads (decode_response_content (fun c => if c = [31, 139, 0] then some [123, 125] else none)
        (fun _ => none) [123, 125]) = some (Json.obj []) :=
  c6_gzip_idempotence (fun c => if c = [31, 139, 0] then some [123, 125] else none)
    (fun _ => none) [123, 125] [31, 139, 0] (String.mk [leftBrace, rightBrace]) (Json.obj [])
    (by decide) (by decide) (by decide) rfl rfl

theorem latin1Decode_of_valid {content : List Nat} (h : ∀ b ∈ content, b < 256) :
    latin1Decode content = some (String.mk (content.map Char.ofNat)) := by
  have hall : content.all (fun b => decide (b < 256)) = true := by
    rw [List.all_eq_true]
    intro b hb
    simpa using h b hb
  simp [latin1Decode, hall]

theorem decompressStep_valid {gz zl : List Nat → Option (List Nat)} {content : List Nat}
    (h : ∀ b ∈ content, b < 256)
    (hgz : ∀ x d, gz x = some d → ∀ b ∈ d, b < 256)
    (hzl : ∀ x d, zl x = some d → ∀ b ∈ d, b < 256) :
    ∀ b ∈ decompressStep gz zl content, b < 256 := by
  unfold decompressStep
  by_cases h1 : content ≠ [] ∧ 2 < content.length
  · rw [if_pos h1]
    by_cases h2 : content.take 2 = [31, 139]
    · rw [if_pos h2]
      cases hg : gz content with
      | some d => exact hgz content d hg
      | none => exact h
    · rw [if_neg h2]
      by_cases h3 : content.head? = some 120
      · rw [if_pos h3]
        cases hz : zl content with
        | some d => exact hzl content d hz
        | none => exact h
      · rw [if_neg h3]
        exact h
  · rw [if_neg h1]
    exact h

/-- C7: response-content decoding is total and only degrades: a failed
gzip or zlib decompression keeps the raw bytes; text decoding takes the
utf-8 result when utf-8 succeeds and otherwise the latin-1 decoding,
which never fails on real bytes, so the byte-count placeholder branch is
never reached. -/
theorem c7_decode_total :
    (∀ gz zl (content : List Nat), 2 < content.length → content.take 2 = [31, 139] →
      gz content = none → decompressStep gz zl content = content) ∧
    (∀ gz zl (content : List Nat), 2 < content.length → content.take 2 ≠ [31, 139] →
      content.head? = some 120 → zl content = none → decompressStep gz zl content = content) ∧
    (∀ content s, utf8Decode content = some s → textDecode content = s) ∧
    (∀ content : List Nat, (∀ b ∈ content, b < 256) → utf8Decode content = none →
      textDecode content = String.mk (content.map Char.ofNat)) ∧
    (∀ gz zl (content : List Nat), (∀ b ∈ content, b < 256) →
      (∀ x d, gz x = some d → ∀ b ∈ d, b < 256) →
      (∀ x d, zl x = some d → ∀ b ∈ d, b < 256) →
      decode_response_content gz zl content =
        match utf8Decode (decompressStep gz zl content) with
        | some s => s
        | none => String.mk ((decompressStep gz zl content).map Char.ofNat)) := by
  have h3 : ∀ (content : List Nat) s, utf8Decode content = some s → textDecode content = s := by
    intro content s hu
    unfold textDecode
    rw [hu]
  have h4 : ∀ content : List Nat, (∀ b ∈ content, b < 256) → utf8Decode content = none →
      textDecode content = String.mk (content.map Char.ofNat) := by
    intro content hv hu
    unfold textDecode
    rw [hu, latin1Decode_of_valid hv]
  refine ⟨?_, ?_, h3, h4, ?_⟩
  · intro gz zl content hlen hmagic hg
    have hne : content ≠ [] := by
      intro h
      rw [h] at hlen
      simp at hlen
    unfold decompressStep
    rw [if_pos ⟨hne, hlen⟩, if_pos hmagic, hg]
  · intro gz zl content hlen hmagic hhead hz
    have hne : content ≠ [] := by
      intro h
      rw [h] at hlen
      simp at hlen
    unfold decompressStep
    rw [if_pos ⟨hne, hlen⟩, if_neg hmagic, if_pos hhead, hz]
  · intro gz zl content hv hgz hzl
    have hv2 := decompressStep_valid hv hgz hzl
    unfold decode_response_content
    cases hu : utf8Decode (decompressStep gz zl content) with
    | some s => rw [h3 _ _ hu]
    | none => rw [h4 _ hv2 hu]

/-- Witness for C7 at concrete inputs: a failed gzip decompression keeps
the magic-byte input; ascii bytes decode via utf-8; invalid utf-8 bytes
fall back to latin-1. -/
theorem c7_decode_total_witness :
    decompressStep (fun _ => none) (fun _ => none) [31, 139, 0] = [31, 139, 0] ∧
    decompressStep (fun _ => none) (fun _ => none) [120, 1, 2] = [120, 1, 2] ∧
    textDecode [104, 105] = "hi" ∧
    textDecode [255, 254, 253] = String.mk ([255, 254, 253].map Char.ofNat) ∧
    decode_response_content (fun _ => none) (fun _ => none) [255, 254, 253] =
      match utf8Decode (decompressStep (fun _ => none) (fun _ => none) [255, 254, 253]) with
      | some s => s
      | none =>
        String.mk ((decompressStep (fun _ => none) (fun _ => none) [255, 254, 253]).map Char.ofNat) :=
  ⟨c7_decode_total.1 (fun _ => none) (fun _ => none) [31, 139, 0] (by decide) (by decide) rfl,
   c7_decode_total.2.1 (fun _ => none) (fun _ => none) [120, 1, 2] (by decide) (by decide)
     (by decide) rfl,
   c7_decode_total.2.2.1 [104, 105] "hi" (by decide),
   c7_decode_total.2.2.2.1 [255, 254, 253] (by decide) (by decide),
   c7_decode_total.2.2.2.2 (fun _ => none) (fun _ => none) [255, 254, 253] (by decide)
     (fun _ d h => Option.noConfusion h) (fun _ d h => Option.noConfusion h)⟩

/-- C1: credential resolution returns the first non-empty value among
the explicit argument, the connection-scoped value and the environment
default, in that order, and fails with a configuration error when all
three are empty; in src/server.py, an empty context-variable key makes
make_api_request raise before any request is issued (second component
none). -/
theorem c1_credential_precedence :
    (∀ e c env v, nonEmpty e = some v → resolve e c env = Except.ok v) ∧
    (∀ e c env v, nonEmpty e = none → nonEmpty c = some v → resolve e c env = Except.ok v) ∧
    (∀ e c env v, nonEmpty e = none → nonEmpty c = none → nonEmpty env = some v →
      resolve e c env = Except.ok v) ∧
    (∀ e c env, nonEmpty e = none → nonEmpty c = none → nonEmpty env = none →
      resolve e c env = Except.error "credential required") ∧
    (∀ gz zl store ctx m p jd pr (respond : Request → Response), store ctx = "" →
      make_api_request gz zl store ctx m p jd pr respond = (Except.error apiKeyErrMsg, none)) := by
  refine ⟨?_, ?_, ?_, ?_, ?_⟩
  · intro e c env v h1
    unfold resolve
    rw [h1]
  · intro e c env v h1 h2
    unfold resolve
    rw [h1, h2]
  · intro e c env v h1 h2 h3
    unfold resolve
    rw [h1, h2, h3]
  · intro e c env h1 h2 h3
    unfold resolve
    rw [h1, h2, h3]
  · intro gz zl store ctx m p jd pr respond hkey
    unfold make_api_request contextvar_get
    rw [if_pos hkey]

/-- Witness for C1: each precedence position at concrete sources, and
the empty-store short-circuit of make_api_request. -/
theorem c1_credential_precedence_witness :
    resolve (some "explicit-key") (some "conn-key") (some "env-key") =
      Except.ok "explicit-key" ∧
    resolve (some "") (some "conn-key") (some "env-key") = Except.ok "conn-key" ∧
    resolve none (some "") (some "env-key") = Except.ok "env-key" ∧
    resolve (some "") none (some "") = Except.error "credential required" ∧
    make_api_request (fun _ => none) (fun _ => none) (fun _ => "") 0 "GET"
        "/catchAll/status/j1" none none (fun _ => { status := 200, content := [] }) =
      (Except.error apiKeyErrMsg, none) :=
  ⟨c1_credential_precedence.1 _ _ _ _ rfl,
   c1_credential_precedence.2.1 _ _ _ _ rfl rfl,
   c1_credential_precedence.2.2.1 _ _ _ _ rfl rfl rfl,
   c1_credential_precedence.2.2.2.1 _ _ _ rfl rfl rfl,
   c1_credential_precedence.2.2.2.2 _ _ _ 0 _ _ _ _ _ rfl⟩

/-- C2 counterexample: on body with a nested detail object and status
422, extract_error_message returns the Python str() of the inner dict,
not the inner string "bad query" the claim requires. -/
theorem c2_counterexample :
    extract_error_message (fun _ => none) (fun _ => none) 422
        (utf8Encode "\x7b\"detail\":\x7b\"detail\":\"bad query\"\x7d\x7d") ≠ "bad query" ∧
    extract_error_message (fun _ => none) (fun _ => none) 422
        (utf8Encode "\x7b\"detail\":\x7b\"detail\":\"bad query\"\x7d\x7d") =
      String.singleton leftBrace ++ squo ++ "detail" ++ squo ++ ": " ++ squo ++
        "bad query" ++ squo ++ String.singleton rightBrace := by
  constructor
  · decide
  · decide

/-- C2 as amended: extraction tries the JSON fields detail, error,
message in order, each converted with Python str (so a nested dict under
detail yields the dict repr, not an inner field), then the decoded text,
then a synthesized HTTP status string for an empty body; the error, raw
text and empty-body examples of the claim hold as stated. -/
theorem c2_error_extraction :
    (∀ gz zl status content fields v,
      json_loads (decode_response_content gz zl content) = some (Json.obj fields) →
      objGet fields "detail" = some v →
      extract_error_message gz zl status content = pyStr v) ∧
    (∀ gz zl status content fields v,
      json_loads (decode_response_content gz zl content) = some (Json.obj fields) →
      objGet fields "detail" = none → objGet fields "error" = some v →
      extract_error_message gz zl status content = pyStr v) ∧
    (∀ gz zl status content fields v,
      json_loads (decode_response_content gz zl content) = some (Json.obj fields) →
      objGet fields "detail" = none → objGet fields "error" = none →
      objGet fields "message" = some v →
      extract_error_message gz zl status content = pyStr v) ∧
    (∀ gz zl status content fields,
      json_loads (decode_response_content gz zl content) = some (Json.obj fields) →
      objGet fields "detail" = none → objGet fields "error" = none →
      objGet fields "message" = none →
      extract_error_message gz zl status content = decode_response_content gz zl content) ∧
    (∀ gz zl status content v,
      json_loads (decode_response_content gz zl content) = some v →
      (∀ fields, v ≠ Json.obj fields) →
      extract_error_message gz zl status content = decode_response_content gz zl content) ∧
    (∀ gz zl status content,
      json_loads (decode_response_content gz zl content) = none →
      decode_response_content gz zl content ≠ "" →
      extract_error_message gz zl status content = decode_response_content gz zl content) ∧
    (∀ gz zl status content,
      json_loads (decode_response_content gz zl content) = none →
      decode_response_content gz zl content = "" →
      extract_error_message gz zl status content = "HTTP " ++ toString status) ∧
    extract_error_message (fun _ => none) (fun _ => none) 400
      (utf8Encode "\x7b\"error\":\"x\"\x7d") = "x" ∧
    extract_error_message (fun _ => none) (fun _ => none) 400 (utf8Encode "oops") = "oops" ∧
    extract_error_message (fun _ => none) (fun _ => none) 500 [] = "HTTP 500" := by
  refine ⟨?_, ?_, ?_, ?_, ?_, ?_, ?_, rfl, rfl, rfl⟩
  · intro gz zl status content fields v hp hd
    unfold extract_error_message
    simp only [hp, hd]
  · intro gz zl status content fields v hp hd he
    unfold extract_error_message
    simp only [hp, hd, he]
  · intro gz zl status content fields v hp hd he hm
    unfold extract_error_message
    simp only [hp, hd, he, hm]
  · intro gz zl status content fields hp hd he hm
    unfold extract_error_message
    simp only [hp, hd, he, hm]
  · intro gz zl status content v hp hne
    unfold extract_error_message
    simp only [hp]
  · intro gz zl status content hp hne
    unfold extract_error_message
    simp only [hp]
    rw [if_neg hne]
  · intro gz zl status content hp hemp
    unfold extract_error_message
    simp only [hp]
    rw [if_pos hemp]

/-- Witness for C2 as amended: the detail and empty-body branches at
concrete inputs. -/
theorem c2_error_extraction_witness :
    extract_error_message (fun _ => none) (fun _ => none) 422
        (utf8Encode "\x7b\"detail\":\"bad\"\x7d") = pyStr (Json.str "bad") ∧
    extract_error_message (fun _ => none) (fun _ => none) 503 [] =
      "HTTP " ++ toString 503 :=
  ⟨c2_error_extraction.1 (fun _ => none) (fun _ => none) 422 _
      [("detail", Json.str "bad")] (Json.str "bad") rfl rfl,
   c2_error_extraction.2.2.2.2.2.2.1 (fun _ => none) (fun _ => none) 503 [] rfl rfl⟩

theorem make_api_request_issued {gz zl : List Nat → Option (List Nat)}
    {store : Nat → String} {ctx : Nat} {m p : String}
    {jd pr : Option (List (String × Json))} {respond : Request → Response}
    (h : ¬ store ctx = "") :
    (make_api_request gz zl store ctx m p jd pr respond).2 =
      some (buildRequest (store ctx) m p jd pr) := by
  unfold make_api_request contextvar_get
  rw [if_neg h]
  dsimp only
  split
  · rfl
  · split <;> rfl

/-- C3 counterexample: pull_job_results("abc") issues a request with no
query parameters at all, so no page=2, page_size=50 query can appear and
the tool has no page arguments. -/
theorem c3_counterexample :
    (pull_job_results "abc").params = none ∧
    (pull_job_results "abc").path = "/catchAll/pull/abc" ∧
    (pull_job_results "abc").params ≠
      some [("page", Json.num 2), ("page_size", Json.num 50)] :=
  ⟨rfl, rfl, fun h => Option.noConfusion h⟩

/-- C3 as amended: pull_job_results accepts only job_id and issues
GET /catchAll/pull/job_id with no body and no query parameters; with a
non-empty key the assembled upstream request carries exactly that method
and path and empty body and params. -/
theorem c3_pull_request_template :
    (∀ job_id, pull_job_results job_id =
      { method := "GET", path := "/catchAll/pull/" ++ job_id,
        json_data := none, params := none }) ∧
    (∀ gz zl store ctx job_id (respond : Request → Response), ¬ store ctx = "" →
      (make_api_request gz zl store ctx (pull_job_results job_id).method
          (pull_job_results job_id).path (pull_job_results job_id).json_data
          (pull_job_results job_id).params respond).2 =
        some (buildRequest (store ctx) "GET" ("/catchAll/pull/" ++ job_id) none none)) :=
  ⟨fun _ => rfl,
   fun _ _ _ _ _ _ h => make_api_request_issued h⟩

/-- Witness for C3 as amended: the issued request at a concrete store
and job id. -/
theorem c3_pull_request_template_witness :
    (make_api_request (fun _ => none) (fun _ => none) (fun _ => "K") 0
        (pull_job_results "abc").method (pull_job_results "abc").path
        (pull_job_results "abc").json_data (pull_job_results "abc").params
        (fun _ => { status := 200, content := [] })).2 =
      some (buildRequest "K" "GET" "/catchAll/pull/abc" none none) :=
  c3_pull_request_template.2 (fun _ => none) (fun _ => none) (fun _ => "K") 0 "abc"
    (fun _ => { status := 200, content := [] }) (by decide)

/-- C4: every upstream status of at least 400 makes make_api_request
raise an error carrying the status code and the extracted message; the
concrete 429 rate-limit body yields an error string containing the text
Error (429): rate limited. -/
theorem c4_api_error :
    (∀ gz zl store ctx m p jd pr (respond : Request → Response), ¬ store ctx = "" →
      400 ≤ (respond (buildRequest (store ctx) m p jd pr)).status →
      make_api_request gz zl store ctx m p jd pr respond =
        (Except.error ("API Error (" ++
            toString (respond (buildRequest (store ctx) m p jd pr)).status ++ "): " ++
            extract_error_message gz zl (respond (buildRequest (store ctx) m p jd pr)).status
              (respond (buildRequest (store ctx) m p jd pr)).content),
         some (buildRequest (store ctx) m p jd pr))) ∧
    (∃ pre post,
      (make_api_request (fun _ => none) (fun _ => none) (fun _ => "K") 0 "GET" "/x" none none
          (fun _ =>
            { status := 429, content := utf8Encode "\x7b\"detail\":\"rate limited\"\x7d" })).1 =
        Except.error (pre ++ "Error (429): rate limited" ++ post)) := by
  constructor
  · intro gz zl store ctx m p jd pr respond hkey hstatus
    unfold make_api_request contextvar_get
    rw [if_neg hkey]
    dsimp only
    rw [if_pos hstatus]
  · exact ⟨"API ", "", rfl⟩

/-- Witness for C4 at a concrete 500 response. -/
theorem c4_api_error_witness :
    make_api_request (fun _ => none) (fun _ => none) (fun _ => "K") 0 "GET" "/x" none none
        (fun _ => { status := 500, content := [] }) =
      (Except.error ("API Error (" ++ toString (500 : Nat) ++ "): " ++
          extract_error_message (fun _ => none) (fun _ => none) 500 []),
       some (buildRequest "K" "GET" "/x" none none)) :=
  c4_api_error.1 (fun _ => none) (fun _ => none) (fun _ => "K") 0 "GET" "/x" none none
    (fun _ => { status := 500, content := [] }) (by decide) (by decide)

/-- C5: every upstream status below 400 makes make_api_request parse the
decoded body as JSON and return the parsed value; a body that fails to
parse is wrapped as a single-field result object instead of being
discarded or raising. -/
theorem c5_success_body :
    (∀ gz zl store ctx m p jd pr (respond : Request → Response) v, ¬ store ctx = "" →
      (respond (buildRequest (store ctx) m p jd pr)).status < 400 →
      json_loads (decode_response_content gz zl
          (respond (buildRequest (store ctx) m p jd pr)).content) = some v →
      make_api_request gz zl store ctx m p jd pr respond =
        (Except.ok v, some (buildRequest (store ctx) m p jd pr))) ∧
    (∀ gz zl store ctx m p jd pr (respond : Request → Response), ¬ store ctx = "" →
      (respond (buildRequest (store ctx) m p jd pr)).status < 400 →
      json_loads (decode_response_content gz zl
          (respond (buildRequest (store ctx) m p jd pr)).content) = none →
      make_api_request gz zl store ctx m p jd pr respond =
        (Except.ok (Json.obj [("result", Json.str (decode_response_content gz zl
            (respond (buildRequest (store ctx) m p jd pr)).content))]),
         some (buildRequest (store ctx) m p jd pr))) := by
  constructor
  · intro gz zl store ctx m p jd pr respond v hkey hstatus hparse
    unfold make_api_request contextvar_get
    rw [if_neg hkey]
    dsimp only
    rw [if_neg (Nat.not_le.mpr hstatus)]
    rw [hparse]
  · intro gz zl store ctx m p jd pr respond hkey hstatus hparse
    unfold make_api_request contextvar_get
    rw [if_neg hkey]
    dsimp only
    rw [if_neg (Nat.not_le.mpr hstatus)]
    rw [hparse]

/-- Witness for C5: a JSON body returned parsed and a non-JSON body
wrapped in a result object, both at concrete inputs. -/
theorem c5_success_body_witness :
    make_api_request (fun _ => none) (fun _ => none) (fun _ => "K") 0 "GET" "/x" none none
        (fun _ => { status := 200, content := utf8Encode "\x7b\"job_id\":\"abc\"\x7d" }) =
      (Except.ok (Json.obj [("job_id", Json.str "abc")]),
       some (buildRequest "K" "GET" "/x" none none)) ∧
    make_api_request (fun _ => none) (fun _ => none) (fun _ => "K") 0 "GET" "/x" none none
        (fun _ => { status := 200, content := utf8Encode "oops" }) =
      (Except.ok (Json.obj [("result", Json.str (decode_response_content (fun _ => none)
          (fun _ => none) (utf8Encode "oops")))]),
       some (buildRequest "K" "GET" "/x" none none)) :=
  ⟨c5_success_body.1 (fun _ => none) (fun _ => none) (fun _ => "K") 0 "GET" "/x" none none
      (fun _ => { status := 200, content := utf8Encode "\x7b\"job_id\":\"abc\"\x7d" })
      (Json.obj [("job_id", Json.str "abc")]) (by decide) (by decide) rfl,
   c5_success_body.2 (fun _ => none) (fun _ => none) (fun _ => "K") 0 "GET" "/x" none none
      (fun _ => { status := 200, content := utf8Encode "oops" }) (by decide) (by decide) rfl⟩

/-- C8 counterexample: supplying name as the empty string (with no
schedule) is a supplied field, yet update_monitor raises the validation
error and issues no request; and an empty name supplied alongside a
non-empty schedule is missing from the PATCH body, so the body does not
contain exactly the supplied fields. -/
theorem c8_counterexample :
    update_monitor "m1" (some "") none = Except.error updateMonitorErrMsg ∧
    update_monitor "m1" (some "") (some "daily") =
      Except.ok { method := "PATCH", path := "/catchAll/monitors/m1",
                  json_data := some [("schedule", Json.str "daily")], params := none } :=
  ⟨rfl, rfl⟩

/-- C8 as amended: update_monitor fails with the local validation error
and issues no upstream request whenever both arguments are missing or
empty (Python falsy), and when at least one non-empty field is supplied
it returns a PATCH /catchAll/monitors/id call whose body contains
exactly the non-empty supplied fields. -/
theorem c8_update_monitor :
    (∀ id name schedule, truthyStr name = false → truthyStr schedule = false →
      update_monitor id name schedule = Except.error updateMonitorErrMsg) ∧
    (∀ id n schedule, ¬ n = "" → truthyStr schedule = false →
      update_monitor id (some n) schedule =
        Except.ok { method := "PATCH", path := "/catchAll/monitors/" ++ id,
                    json_data := some [("name", Json.str n)], params := none }) ∧
    (∀ id name s, truthyStr name = false → ¬ s = "" →
      update_monitor id name (some s) =
        Except.ok { method := "PATCH", path := "/catchAll/monitors/" ++ id,
                    json_data := some [("schedule", Json.str s)], params := none }) ∧
    (∀ id n s, ¬ n = "" → ¬ s = "" →
      update_monitor id (some n) (some s) =
        Except.ok { method := "PATCH", path := "/catchAll/monitors/" ++ id,
                    json_data := some [("name", Json.str n), ("schedule", Json.str s)],
                    params := none }) := by
  refine ⟨?_, ?_, ?_, ?_⟩
  · intro id name schedule h1 h2
    unfold update_monitor
    simp only [h1, h2]
    rfl
  · intro id n schedule h1 h2
    have ht : truthyStr (some n) = true := by
      simp [truthyStr, h1]
    unfold update_monitor
    simp only [ht, h2]
    rfl
  · intro id name s h1 h2
    have ht : truthyStr (some s) = true := by
      simp [truthyStr, h2]
    unfold update_monitor
    simp only [h1, ht]
    rfl
  · intro id n s h1 h2
    have ht1 : truthyStr (some n) = true := by
      simp [truthyStr, h1]
    have ht2 : truthyStr (some s) = true := by
      simp [truthyStr, h2]
    unfold update_monitor
    simp only [ht1, ht2]
    rfl

/-- Witness for C8 as amended at concrete arguments. -/
theorem c8_update_monitor_witness :
    update_monitor "m1" none none = Except.error updateMonitorErrMsg ∧
    update_monitor "m1" (some "news") none =
      Except.ok { method := "PATCH", path := "/catchAll/monitors/m1",
                  json_data := some [("name", Json.str "news")], params := none } ∧
    update_monitor "m1" none (some "hourly") =
      Except.ok { method := "PATCH", path := "/catchAll/monitors/m1",
                  json_data := some [("schedule", Json.str "hourly")], params := none } ∧
    update_monitor "m1" (some "news") (some "hourly") =
      Except.ok { method := "PATCH", path := "/catchAll/monitors/m1",
                  json_data := some [("name", Json.str "news"), ("schedule", Json.str "hourly")],
                  params := none } :=
  ⟨c8_update_monitor.1 "m1" none none rfl rfl,
   c8_update_monitor.2.1 "m1" "news" none (by decide) rfl,
   c8_update_monitor.2.2.1 "m1" none "hourly" rfl (by decide),
   c8_update_monitor.2.2.2 "m1" "news" "hourly" (by decide) (by decide)⟩

/-- C9: the credential store is a context variable keyed by the logical
call context, so two concurrent call contexts with distinct apiKey query
parameters never observe each other: after both middlewares ran, in
either order, each context reads back its own key and the upstream
request assembled for it carries exactly that key. -/
theorem c9_connection_isolation :
    ∀ (store : Nat → String) (ctx1 ctx2 : Nat) (qp1 qp2 : List (String × String))
      (gz zl : List Nat → Option (List Nat)) (m p : String)
      (jd pr : Option (List (String × Json))) (respond : Request → Response),
      ¬ ctx1 = ctx2 →
      ¬ queryGet qp1 "apiKey" = "" →
      ¬ queryGet qp2 "apiKey" = "" →
      contextvar_get (on_call_tool (on_call_tool store ctx1 qp1) ctx2 qp2) ctx1 =
        queryGet qp1 "apiKey" ∧
      contextvar_get (on_call_tool (on_call_tool store ctx1 qp1) ctx2 qp2) ctx2 =
        queryGet qp2 "apiKey" ∧
      contextvar_get (on_call_tool (on_call_tool store ctx2 qp2) ctx1 qp1) ctx1 =
        queryGet qp1 "apiKey" ∧
      contextvar_get (on_call_tool (on_call_tool store ctx2 qp2) ctx1 qp1) ctx2 =
        queryGet qp2 "apiKey" ∧
      (make_api_request gz zl (on_call_tool (on_call_tool store ctx1 qp1) ctx2 qp2) ctx1
          m p jd pr respond).2 =
        some (buildRequest (queryGet qp1 "apiKey") m p jd pr) ∧
      (make_api_request gz zl (on_call_tool (on_call_tool store ctx1 qp1) ctx2 qp2) ctx2
          m p jd pr respond).2 =
        some (buildRequest (queryGet qp2 "apiKey") m p jd pr) := by
  intro store ctx1 ctx2 qp1 qp2 gz zl m p jd pr respond h12 hk1 hk2
  have e1 : on_call_tool store ctx1 qp1 = contextvar_set store ctx1 (queryGet qp1 "apiKey") := by
    unfold on_call_tool
    rw [if_pos hk1]
  have e2 : ∀ st, on_call_tool st ctx2 qp2 = contextvar_set st ctx2 (queryGet qp2 "apiKey") := by
    intro st
    unfold on_call_tool
    rw [if_pos hk2]
  have e3 : ∀ st, on_call_tool st ctx1 qp1 = contextvar_set st ctx1 (queryGet qp1 "apiKey") := by
    intro st
    unfold on_call_tool
    rw [if_pos hk1]
  have g1 : contextvar_get (on_call_tool (on_call_tool store ctx1 qp1) ctx2 qp2) ctx1 =
      queryGet qp1 "apiKey" := by
    rw [e1, e2]
    simp [contextvar_get, contextvar_set, h12]
  have g2 : contextvar_get (on_call_tool (on_call_tool store ctx1 qp1) ctx2 qp2) ctx2 =
      queryGet qp2 "apiKey" := by
    rw [e1, e2]
    simp [contextvar_get, contextvar_set]
  have g3 : contextvar_get (on_call_tool (on_call_tool store ctx2 qp2) ctx1 qp1) ctx1 =
      queryGet qp1 "apiKey" := by
    rw [e2, e3]
    simp [contextvar_get, contextvar_set]
  have g4 : contextvar_get (on_call_tool (on_call_tool store ctx2 qp2) ctx1 qp1) ctx2 =
      queryGet qp2 "apiKey" := by
    rw [e2, e3]
    have h21 : ¬ ctx2 = ctx1 := fun h => h12 h.symm
    simp [contextvar_get, contextvar_set, h21]
  refine ⟨g1, g2, g3, g4, ?_, ?_⟩
  · have hne : ¬ (on_call_tool (on_call_tool store ctx1 qp1) ctx2 qp2) ctx1 = "" := by
      rw [show (on_call_tool (on_call_tool store ctx1 qp1) ctx2 qp2) ctx1 =
        queryGet qp1 "apiKey" from g1]
      exact hk1
    rw [make_api_request_issued hne]
    rw [show (on_call_tool (on_call_tool store ctx1 qp1) ctx2 qp2) ctx1 =
      queryGet qp1 "apiKey" from g1]
  · have hne : ¬ (on_call_tool (on_call_tool store ctx1 qp1) ctx2 qp2) ctx2 = "" := by
      rw [show (on_call_tool (on_call_tool store ctx1 qp1) ctx2 qp2) ctx2 =
        queryGet qp2 "apiKey" from g2]
      exact hk2
    rw [make_api_request_issued hne]
    rw [show (on_call_tool (on_call_tool store ctx1 qp1) ctx2 qp2) ctx2 =
      queryGet qp2 "apiKey" from g2]

/-- Witness for C9 at two concrete contexts and keys. -/
theorem c9_connection_isolation_witness :
    contextvar_get (on_call_tool (on_call_tool (fun _ => "") 0 [("apiKey", "k1")]) 1
      [("apiKey", "k2")]) 0 = "k1" ∧
    contextvar_get (on_call_tool (on_call_tool (fun _ => "") 0 [("apiKey", "k1")]) 1
      [("apiKey", "k2")]) 1 = "k2" ∧
    contextvar_get (on_call_tool (on_call_tool (fun _ => "") 1 [("apiKey", "k2")]) 0
      [("apiKey", "k1")]) 0 = "k1" ∧
    contextvar_get (on_call_tool (on_call_tool (fun _ => "") 1 [("apiKey", "k2")]) 0
      [("apiKey", "k1")]) 1 = "k2" ∧
    (make_api_request (fun _ => none) (fun _ => none)
        (on_call_tool (on_call_tool (fun _ => "") 0 [("apiKey", "k1")]) 1 [("apiKey", "k2")]) 0
        "GET" "/catchAll/monitors/" none none
        (fun _ => { status := 200, content := [] })).2 =
      some (buildRequest "k1" "GET" "/catchAll/monitors/" none none) ∧
    (make_api_request (fun _ => none) (fun _ => none)
        (on_call_tool (on_call_tool (fun _ => "") 0 [("apiKey", "k1")]) 1 [("apiKey", "k2")]) 1
        "GET" "/catchAll/monitors/" none none
        (fun _ => { status := 200, content := [] })).2 =
      some (buildRequest "k2" "GET" "/catchAll/monitors/" none none) :=
  c9_connection_isolation (fun _ => "") 0 1 [("apiKey", "k1")] [("apiKey", "k2")]
    (fun _ => none) (fun _ => none) "GET" "/catchAll/monitors/" none none
    (fun _ => { status := 200, content := [] }) (by decide) (by decide) (by decide)

/-- C10: update_monitor treats empty-string arguments as absent: empty
name and schedule behave exactly like omitting both, failing with the
validation error before any request, and an empty field next to a
non-empty one is left out of the PATCH body. -/
theorem c10_empty_string_absent :
    (∀ id, update_monitor id (some "") (some "") = update_monitor id none none) ∧
    (∀ id, update_monitor id (some "") (some "") = Except.error updateMonitorErrMsg) ∧
    (∀ id s, ¬ s = "" → update_monitor id (some "") (some s) =
      Except.ok { method := "PATCH", path := "/catchAll/monitors/" ++ id,
                  json_data := some [("schedule", Json.str s)], params := none }) ∧
    (∀ id n, ¬ n = "" → update_monitor id (some n) (some "") =
      Except.ok { method := "PATCH", path := "/catchAll/monitors/" ++ id,
                  json_data := some [("name", Json.str n)], params := none }) := by
  refine ⟨fun id => rfl, fun id => rfl, ?_, ?_⟩
  · intro id s hs
    have ht : truthyStr (some s) = true := by
      simp [truthyStr, hs]
    unfold update_monitor
    simp only [ht]
    rfl
  · intro id n hn
    have ht : truthyStr (some n) = true := by
      simp [truthyStr, hn]
    unfold update_monitor
    simp only [ht]
    rfl

/-- Witness for C10 at concrete arguments. -/
theorem c10_empty_string_absent_witness :
    update_monitor "m2" (some "") (some "") = update_monitor "m2" none none ∧
    update_monitor "m2" (some "") (some "") = Except.error updateMonitorErrMsg ∧
    update_monitor "m2" (some "") (some "weekly") =
      Except.ok { method := "PATCH", path := "/catchAll/monitors/m2",
                  json_data := some [("schedule", Json.str "weekly")], params := none } ∧
    update_monitor "m2" (some "n2") (some "") =
      Except.ok { method := "PATCH", path := "/catchAll/monitors/m2",
                  json_data := some [("name", Json.str "n2")], params := none } :=
  ⟨c10_empty_string_absent.1 "m2",
   c10_empty_string_absent.2.1 "m2",
   c10_empty_string_absent.2.2.1 "m2" "weekly" (by decide),
   c10_empty_string_absent.2.2.2 "m2" "n2" (by decide)⟩
